import Mathlib

/-!
Shallow embedding of the lobby coordinator and status-query client of the
ema-gaming server (src/index.js, first file segment).  The lobby handlers
(`createGame`, `joinGame`, `leaveGame`, `toggleReady`, `updateGame`,
`disconnect`) live at src/index.js lines 180-343; the status-query parsing
and probe packet at lines 377-427.

JavaScript strings are modelled as `String`/`List Char`; the `Map` objects
`activeGames` and `connectedUsers` are modelled as association lists with
JS `Map.set`/`Map.get`/`Map.delete` semantics (a JS `Map` never holds two
entries with the same key; where a theorem needs that invariant it is taken
as a hypothesis).  Each socket handler becomes a pure function from the
store (plus its event arguments) to the new store and the list of events
broadcast via `io.emit`, in emission order.
-/

namespace EmaGaming

/-- A participant record inside a game session (the `player` objects of
src/index.js).  Caller-supplied display fields are represented by `uid`
and `name`; `isReady` is the readiness flag. -/
structure Participant where
  uid : String
  name : String
  isReady : Bool
deriving DecidableEq

/-- A game session as stored in `activeGames` (src/index.js): an id, a
status string (the source compares against the literal "In Progress"),
and the ordered participant list. -/
structure Game where
  id : String
  status : String
  participants : List Participant
deriving DecidableEq

/-- The identity stored in `connectedUsers` for a socket
(src/index.js lines 192-197). -/
structure UserInfo where
  id : String
  name : String
  email : Option String
  avatar : Option String
deriving DecidableEq

/-- The events broadcast with `io.emit` by the lobby handlers of
src/index.js, with their payloads. -/
inductive Event where
  | gameCreated (game : Game)
  | playerJoined (gameId : String) (player : Participant)
  | playerLeft (gameId : String) (playerId : String)
  | playerReadyChanged (gameId : String) (playerId : String) (isReady : Bool)
  | allPlayersReady (gameId : String)
  | gameUpdated (game : Game)
deriving DecidableEq

/-- The `activeGames` map: association list from game id to game. -/
abbrev Store := List (String × Game)

/-- The `connectedUsers` map: association list from socket id to identity. -/
abbrev Registry := List (String × UserInfo)

/-- JS `Map.get`: the value of the entry with the given key, if any. -/
def mapGet (m : Store) (k : String) : Option Game :=
  (m.find? (fun e => e.1 == k)).map Prod.snd

/-- JS `Map.set`: replace the value at the key in place, or append a new
entry. -/
def mapSet (m : Store) (k : String) (v : Game) : Store :=
  match m with
  | [] => [(k, v)]
  | e :: rest => if e.1 == k then (k, v) :: rest else e :: mapSet rest k v

/-- JS `Map.get` on the connected-users map. -/
def userGet (m : Registry) (k : String) : Option UserInfo :=
  (m.find? (fun e => e.1 == k)).map Prod.snd

/-- JS `Map.delete` on the connected-users map. -/
def userDelete (m : Registry) (k : String) : Registry :=
  m.filter (fun e => !(e.1 == k))

/-- The `createGame` handler (src/index.js lines 200-212): store the game
under its id and broadcast `gameCreated`. -/
def createGame (store : Store) (gameData : Game) : Store × List Event :=
  (mapSet store gameData.id gameData, [Event.gameCreated gameData])

/-- The `joinGame` handler (src/index.js lines 215-240): if the game id is
unknown, log and return (no event, store untouched); otherwise append the
player with `isReady := false` (the caller-supplied flag is overwritten by
the object spread `\x7b...player, isReady: false\x7d`) and broadcast
`playerJoined`. -/
def joinGame (store : Store) (gameId : String) (player : Participant) :
    Store × List Event :=
  match mapGet store gameId with
  | none => (store, [])
  | some game =>
    let playerWithReady := { player with isReady := false }
    let game' := { game with participants := game.participants ++ [playerWithReady] }
    (mapSet store gameId game', [Event.playerJoined gameId playerWithReady])

/-- The `leaveGame` handler (src/index.js lines 243-262): remove every
participant whose `uid` equals the leaving player id and broadcast
`playerLeft`. -/
def leaveGame (store : Store) (gameId : String) (playerId : String) :
    Store × List Event :=
  match mapGet store gameId with
  | none => (store, [])
  | some game =>
    let game' := { game with
      participants := game.participants.filter (fun p => !(p.uid == playerId)) }
    (mapSet store gameId game', [Event.playerLeft gameId playerId])

/-- The participant update performed by `toggleReady`
(src/index.js lines 276-278): set the flag on every participant whose
`uid` matches. -/
def updateParts (parts : List Participant) (playerId : String) (ready : Bool) :
    List Participant :=
  parts.map (fun p => if p.uid == playerId then { p with isReady := ready } else p)

/-- The `toggleReady` handler (src/index.js lines 265-292): update the
matching participants, broadcast `playerReadyChanged`, then — when every
participant of the updated list is ready (`Array.every`, vacuously true on
the empty list) — additionally broadcast `allPlayersReady`. -/
def toggleReady (store : Store) (gameId : String) (playerId : String)
    (ready : Bool) : Store × List Event :=
  match mapGet store gameId with
  | none => (store, [])
  | some game =>
    let parts := updateParts game.participants playerId ready
    let store' := mapSet store gameId { game with participants := parts }
    if parts.all (fun p => p.isReady) then
      (store', [Event.playerReadyChanged gameId playerId ready,
                Event.allPlayersReady gameId])
    else
      (store', [Event.playerReadyChanged gameId playerId ready])

/-- The `updateGame` handler (src/index.js lines 295-323).  Note the exact
source order: the status is assigned to the stored game *first*
(`game.status = status; activeGames.set(...)`); only then, when the new
status is "In Progress" and not all participants are ready, does the
handler return early — skipping the `gameUpdated` broadcast but leaving
the already-mutated status in the store. -/
def updateGame (store : Store) (gameId : String) (status : String) :
    Store × List Event :=
  match mapGet store gameId with
  | none => (store, [])
  | some game =>
    let game' := { game with status := status }
    let store' := mapSet store gameId game'
    if status == "In Progress" && !(game'.participants.all (fun p => p.isReady)) then
      (store', [])
    else
      (store', [Event.gameUpdated game'])

/-- Whether a game contains a participant with the given user id
(`game.participants.some(p => p.uid === user.id)`, src/index.js line 335). -/
def hasUser (game : Game) (uid : String) : Bool :=
  game.participants.any (fun p => p.uid == uid)

/-- Removal of every participant with the given user id
(`game.participants.filter(p => p.uid !== user.id)`, src/index.js line 336). -/
def removeUser (game : Game) (uid : String) : Game :=
  { game with participants := game.participants.filter (fun p => !(p.uid == uid)) }

/-- One iteration of the disconnect loop over `activeGames.entries()`
(src/index.js lines 334-340), threading the store being updated and the
events emitted so far. -/
def disconnectStep (uid : String) (acc : Store × List Event)
    (e : String × Game) : Store × List Event :=
  if hasUser e.2 uid then
    (mapSet acc.1 e.1 (removeUser e.2 uid), acc.2 ++ [Event.playerLeft e.1 uid])
  else acc

/-- The `disconnect` handler (src/index.js lines 326-342): look up the
socket's identity, delete its registry entry, and — when an identity was
registered — scan every game, removing the user's participants and
broadcasting `playerLeft` per affected game. -/
def disconnect (users : Registry) (store : Store) (socketId : String) :
    Registry × Store × List Event :=
  let user? := userGet users socketId
  let users' := userDelete users socketId
  match user? with
  | none => (users', store, [])
  | some user =>
    let r := store.foldl (disconnectStep user.id) (store, [])
    (users', r.1, r.2)

/-! ## Status Query Client (src/index.js lines 377-427) -/

/-- Split a character list at every occurrence of the separator, JS
`String.prototype.split` with a single-character separator: the result
always has one more part than there are separators, and a trailing
separator yields a trailing empty part. -/
def splitOnChar (sep : Char) : List Char → List (List Char)
  | [] => [[]]
  | c :: rest =>
    let r := splitOnChar sep rest
    if c == sep then [] :: r
    else
      match r with
      | [] => [[c]]
      | g :: gs => (c :: g) :: gs

/-- JS whitespace accepted by `parseInt` before the number. -/
def jsIsSpace (c : Char) : Bool :=
  c == ' ' || c == '\t' || c == '\n' || c == '\r' || c == '\x0b' || c == '\x0c'

/-- Value of a digit string, most significant first. -/
def digitsVal (ds : List Char) : Nat :=
  ds.foldl (fun acc c => acc * 10 + (c.toNat - '0'.toNat)) 0

/-- Model of the JavaScript `parseInt` builtin restricted to decimal
inputs: skip leading whitespace, an optional sign, then the longest run of
decimal digits; `none` stands for `NaN` (no digits).  The hexadecimal
`0x` prefix of the builtin is not modelled — no input of this development
uses it. -/
def jsParseInt (s : List Char) : Option Int :=
  let t := s.dropWhile jsIsSpace
  match t with
  | '-' :: rest =>
    let ds := rest.takeWhile Char.isDigit
    if ds = [] then none else some (-(digitsVal ds : Int))
  | '+' :: rest =>
    let ds := rest.takeWhile Char.isDigit
    if ds = [] then none else some (digitsVal ds : Int)
  | _ =>
    let ds := t.takeWhile Char.isDigit
    if ds = [] then none else some (digitsVal ds : Int)

/-- The record resolved by `queryGameServer` on a response
(src/index.js lines 388-394).  `maxPlayers := none` stands for the JS
`NaN` a failed `parseInt` would store; `map`/`gametype` `:= none` stands
for the `undefined` read past the end of an odd-length variable list. -/
structure StatusResult where
  status : String
  players : Int
  maxPlayers : Option Int
  map : Option String
  gametype : Option String
deriving DecidableEq

/-- The key/value loop over `statusVars` (src/index.js lines 397-403):
pairs are consumed two at a time; on an odd-length list the final value is
`undefined` (`statusVars[i + 1]` past the end), so `parseInt(undefined)`
is `NaN` and the string fields become `undefined`. -/
def applyStatusVars : List (List Char) → StatusResult → StatusResult
  | [], st => st
  | [key], st =>
    let st := if key = "sv_maxclients".toList then { st with maxPlayers := none } else st
    let st := if key = "mapname".toList then { st with map := none } else st
    let st := if key = "g_gametype".toList then { st with gametype := none } else st
    st
  | key :: value :: rest, st =>
    let st := if key = "sv_maxclients".toList then { st with maxPlayers := jsParseInt value } else st
    let st := if key = "mapname".toList then { st with map := some (String.mk value) } else st
    let st := if key = "g_gametype".toList then { st with gametype := some (String.mk value) } else st
    applyStatusVars rest st

/-- The parsing done in the `message` handler of `queryGameServer`
(src/index.js lines 382-403): split the decoded payload on newlines into a
status line and the remaining "player lines"; split the status line on
backslashes, discard the first token, and fold the alternating key/value
tokens over the defaults.  `players` is the number of player lines minus
one (the source comment: "-1 because last line is empty"). -/
def parseStatusResponse (response : List Char) : StatusResult :=
  let lines := splitOnChar '\n' response
  let statusLine := lines.headD []
  let playerLines := lines.tail
  let statusVars := (splitOnChar '\\' statusLine).tail
  applyStatusVars statusVars
    { status := "online"
      players := (playerLines.length : Int) - 1
      maxPlayers := some 32
      map := some "unknown"
      gametype := some "unknown" }

/-- Node's `Buffer.from(s, 'binary')`: each UTF-16 code unit is truncated
to its low byte (latin1 encoding). -/
def bufferFromBinary (s : String) : List Nat :=
  s.toList.map (fun c => c.toNat % 256)

/-- The probe packet `Buffer.from('ÿÿÿÿgetstatus', 'binary')`
(src/index.js line 380). -/
def queryPacket : List Nat :=
  bufferFromBinary "ÿÿÿÿgetstatus"

/-- The datagram `queryGameServer` sends to `(ip, port)`
(src/index.js line 425): the whole of `queryPacket` (offset 0, full
length), independent of the target. -/
def sentDatagram (_ip : String) (_port : Nat) : List Nat :=
  queryPacket

/-! ## Lemmas about the map model -/

/-- Reading back the key just set yields the new value. -/
theorem mapGet_mapSet_self (m : Store) (k : String) (v : Game) :
    mapGet (mapSet m k v) k = some v := by
  induction m with
  | nil => simp [mapSet, mapGet, List.find?]
  | cons e rest ih =>
    cases h : e.1 == k with
    | true => simp [mapSet, h, mapGet, List.find?]
    | false =>
      simp only [mapSet, h, Bool.false_eq_true, if_false]
      simpa [mapGet, List.find?, h] using ih

/-- Setting one key does not change the value read at another. -/
theorem mapGet_mapSet_ne (m : Store) (k k' : String) (v : Game)
    (hne : k' ≠ k) : mapGet (mapSet m k' v) k = mapGet m k := by
  induction m with
  | nil => simp [mapSet, mapGet, List.find?, beq_eq_false_iff_ne.mpr hne]
  | cons e rest ih =>
    cases h : e.1 == k' with
    | true =>
      have he : e.1 = k' := eq_of_beq h
      have hek : (e.1 == k) = false := beq_eq_false_iff_ne.mpr (he ▸ hne)
      simp [mapSet, h, mapGet, List.find?, beq_eq_false_iff_ne.mpr hne, hek]
    | false =>
      simp only [mapSet, h, Bool.false_eq_true, if_false]
      cases hek : e.1 == k with
      | true => simp [mapGet, List.find?, hek]
      | false => simpa [mapGet, List.find?, hek] using ih

/-- After `Map.delete` the key is gone. -/
theorem userGet_userDelete (m : Registry) (k : String) :
    userGet (userDelete m k) k = none := by
  induction m with
  | nil => rfl
  | cons e rest ih =>
    cases h : e.1 == k with
    | true =>
      simp only [userDelete, List.filter, h] at ih ⊢
      exact ih
    | false =>
      simp only [userDelete, List.filter, h] at ih ⊢
      simp only [userGet, List.find?, h] at ih ⊢
      exact ih

/-- A successful `mapGet` exhibits a store entry. -/
theorem mapGet_mem (m : Store) (k : String) (g : Game)
    (h : mapGet m k = some g) : (k, g) ∈ m := by
  cases hf : m.find? (fun e => e.1 == k) with
  | none => simp [mapGet, hf] at h
  | some e =>
    have h2 : e.2 = g := by simpa [mapGet, hf] using h
    have hm := List.mem_of_find?_eq_some hf
    have hp := List.find?_some hf
    obtain ⟨e1, e2⟩ := e
    simp only at hp h2
    have he1 : e1 = k := eq_of_beq hp
    rw [← he1, ← h2]
    exact hm

/-! ## Theorems for the claims -/

/-- C6: `joinGame` on an unknown session id emits no broadcast and leaves
the Session Store exactly unchanged. -/
theorem C6_joinGame_unknown_noop (store : Store) (gameId : String)
    (player : Participant) (h : mapGet store gameId = none) :
    joinGame store gameId player = (store, []) := by
  simp [joinGame, h]

/-- Witness for C6 at a concrete store that does not contain the id. -/
theorem C6_joinGame_unknown_noop_witness :
    joinGame [("a", { id := "a", status := "Open", participants := [] })] "b"
        { uid := "u", name := "n", isReady := true } =
      ([("a", { id := "a", status := "Open", participants := [] })], []) :=
  C6_joinGame_unknown_noop _ _ _ (by decide)

/-- C9: `joinGame` on an existing session appends the participant with
`isReady` forced to `false`, whatever readiness flag the caller supplied,
and broadcasts exactly that participant in `playerJoined`. -/
theorem C9_joinGame_overrides_ready (store : Store) (gameId : String)
    (player : Participant) (game : Game)
    (h : mapGet store gameId = some game) :
    (joinGame store gameId player).2 =
        [Event.playerJoined gameId { player with isReady := false }]
    ∧ mapGet (joinGame store gameId player).1 gameId =
        some { game with
          participants := game.participants ++ [{ player with isReady := false }] }
    ∧ ({ player with isReady := false } : Participant).isReady = false := by
  refine ⟨?_, ?_, rfl⟩ <;> simp [joinGame, h, mapGet_mapSet_self]

/-- Witness for C9: a caller-supplied participant with `isReady = true`
still enters the session with `isReady = false`. -/
theorem C9_joinGame_overrides_ready_witness :
    (joinGame [("g", { id := "g", status := "Open", participants := [] })] "g"
        { uid := "u", name := "n", isReady := true }).2 =
      [Event.playerJoined "g" { uid := "u", name := "n", isReady := false }]
    ∧ mapGet (joinGame [("g", { id := "g", status := "Open", participants := [] })] "g"
        { uid := "u", name := "n", isReady := true }).1 "g" =
      some { id := "g", status := "Open",
             participants := [{ uid := "u", name := "n", isReady := false }] }
    ∧ ({ uid := "u", name := "n", isReady := false } : Participant).isReady = false :=
  C9_joinGame_overrides_ready [("g", { id := "g", status := "Open", participants := [] })]
    "g" { uid := "u", name := "n", isReady := true }
    { id := "g", status := "Open", participants := [] } (by decide)

/-- C1: the claim says a rejected `updateStatus(id, InProgress)` leaves the
stored session identical to its state before the call.  The code disagrees:
with one not-ready participant the broadcast is indeed suppressed (no
`gameUpdated` event), but `game.status` has already been assigned
"In Progress" and stored before the all-ready check, so the stored session
is *not* identical to its prior state — its status silently flips from
"Open" to "In Progress". -/
theorem C1_inProgress_reject_mutates_status :
    (updateGame
        [("g", { id := "g", status := "Open",
                 participants := [{ uid := "u1", name := "n", isReady := false }] })]
        "g" "In Progress").2 = []
    ∧ mapGet (updateGame
        [("g", { id := "g", status := "Open",
                 participants := [{ uid := "u1", name := "n", isReady := false }] })]
        "g" "In Progress").1 "g" =
      some { id := "g", status := "In Progress",
             participants := [{ uid := "u1", name := "n", isReady := false }] }
    ∧ mapGet (updateGame
        [("g", { id := "g", status := "Open",
                 participants := [{ uid := "u1", name := "n", isReady := false }] })]
        "g" "In Progress").1 "g" ≠
      mapGet [("g", { id := "g", status := "Open",
                      participants := [{ uid := "u1", name := "n", isReady := false }] })] "g" :=
  by decide

/-- C2, counterexample: the claim requires a non-empty participant list for
`updateStatus(id, InProgress)` to succeed, but on a session with zero
participants `Array.every` is vacuously true, so the transition succeeds
and `gameUpdated` is broadcast. -/
theorem C2_counterexample :
    ({ id := "g", status := "Open", participants := [] } : Game).participants = []
    ∧ (updateGame [("g", { id := "g", status := "Open", participants := [] })]
        "g" "In Progress").2 =
      [Event.gameUpdated { id := "g", status := "In Progress", participants := [] }] :=
  by decide

/-- C2, amended: `updateStatus(id, InProgress)` succeeds — broadcasts
`gameUpdated` with the snapshot whose status is "In Progress", which is
also what the store then holds — iff every participant is ready at call
time, the empty participant list counting as vacuously ready; no
non-emptiness requirement. -/
theorem C2_inProgress_success_iff_allReady (store : Store) (gameId : String)
    (game : Game) (h : mapGet store gameId = some game) :
    ((updateGame store gameId "In Progress").2 ≠ [] ↔
        game.participants.all (fun p => p.isReady) = true)
    ∧ (game.participants.all (fun p => p.isReady) = true →
        (updateGame store gameId "In Progress").2 =
          [Event.gameUpdated { game with status := "In Progress" }]
        ∧ mapGet (updateGame store gameId "In Progress").1 gameId =
          some { game with status := "In Progress" }) := by
  cases hall : game.participants.all (fun p => p.isReady) with
  | true => simp [updateGame, h, hall, mapGet_mapSet_self]
  | false => simp [updateGame, h, hall]

/-- Witness for C2's amended statement on a concrete all-ready session. -/
theorem C2_inProgress_success_iff_allReady_witness :
    ((updateGame [("g", { id := "g", status := "Open",
                          participants := [{ uid := "u", name := "n", isReady := true }] })]
        "g" "In Progress").2 ≠ [] ↔
      ([{ uid := "u", name := "n", isReady := true }] : List Participant).all
          (fun p => p.isReady) = true)
    ∧ (([{ uid := "u", name := "n", isReady := true }] : List Participant).all
          (fun p => p.isReady) = true →
        (updateGame [("g", { id := "g", status := "Open",
                             participants := [{ uid := "u", name := "n", isReady := true }] })]
          "g" "In Progress").2 =
          [Event.gameUpdated { id := "g", status := "In Progress",
                               participants := [{ uid := "u", name := "n", isReady := true }] }]
        ∧ mapGet (updateGame [("g", { id := "g", status := "Open",
                                      participants := [{ uid := "u", name := "n", isReady := true }] })]
          "g" "In Progress").1 "g" =
          some { id := "g", status := "In Progress",
                 participants := [{ uid := "u", name := "n", isReady := true }] }) :=
  C2_inProgress_success_iff_allReady
    [("g", { id := "g", status := "Open",
             participants := [{ uid := "u", name := "n", isReady := true }] })]
    "g"
    { id := "g", status := "Open",
      participants := [{ uid := "u", name := "n", isReady := true }] }
    (by decide)

/-- C3: on the exact captured response the claim expects
`players = 1, maxPlayers = 16, map = "dm1", gametype = "0"`; the code
instead takes the literal first line "statusResponse" as the status line,
so the backslash-variable line is counted among the player lines and no
key/value pair is ever seen: the parse yields `players = 3` and all
defaults. -/
theorem C3_captured_input_parse :
    parseStatusResponse
        ("statusResponse\n\\sv_maxclients\\16\\mapname\\dm1\\g_gametype\\0\nplayer1\nplayer2\n".toList) =
      { status := "online", players := 3, maxPlayers := some 32,
        map := some "unknown", gametype := some "unknown" } := by
  decide

/-- C8: for every target, the probe datagram is exactly the 13 bytes
`0xFF 0xFF 0xFF 0xFF` followed by the ASCII codes of "getstatus", with no
trailing null terminator. -/
theorem C8_probe_datagram (ip : String) (port : Nat) :
    sentDatagram ip port =
        [0xFF, 0xFF, 0xFF, 0xFF, 0x67, 0x65, 0x74, 0x73, 0x74, 0x61, 0x74, 0x75, 0x73]
    ∧ sentDatagram ip port =
        [0xFF, 0xFF, 0xFF, 0xFF] ++ "getstatus".toList.map Char.toNat
    ∧ (sentDatagram ip port).length = 13 := by
  refine ⟨?_, ?_, ?_⟩ <;> rfl

/-- When no participant's uid matches, the `toggleReady` map leaves the
participant list unchanged. -/
theorem updateParts_no_match (parts : List Participant) (playerId : String)
    (ready : Bool) (h : ∀ p ∈ parts, (p.uid == playerId) = false) :
    updateParts parts playerId ready = parts := by
  induction parts with
  | nil => rfl
  | cons p rest ih =>
    have hp := h p (List.mem_cons_self p rest)
    have hrest := ih (fun q hq => h q (List.mem_cons_of_mem p hq))
    simp only [updateParts, List.map_cons, hp, Bool.false_eq_true, if_false] at *
    rw [hrest]

/-- C4: a `toggleReady` on an existing session broadcasts
`playerReadyChanged` and then — exactly when every participant of the
updated list is ready, which is vacuously the case for a session with zero
participants — exactly one `allPlayersReady` for that session; when some
participant remains not ready, no `allPlayersReady` is emitted. -/
theorem C4_toggleReady_allReady_events (store : Store) (gameId playerId : String)
    (ready : Bool) (game : Game) (h : mapGet store gameId = some game) :
    (toggleReady store gameId playerId ready).2 =
      if (updateParts game.participants playerId ready).all (fun p => p.isReady) then
        [Event.playerReadyChanged gameId playerId ready, Event.allPlayersReady gameId]
      else
        [Event.playerReadyChanged gameId playerId ready] := by
  cases hall : (updateParts game.participants playerId ready).all (fun p => p.isReady) with
  | true => simp [toggleReady, h, hall]
  | false => simp [toggleReady, h, hall]

/-- Witness for C4 on a session with zero participants: `Array.every` on
the empty list is vacuously true, so the single `allPlayersReady` fires. -/
theorem C4_toggleReady_allReady_events_witness :
    (toggleReady [("g", { id := "g", status := "Open", participants := [] })]
        "g" "u" true).2 =
      if (updateParts ([] : List Participant) "u" true).all (fun p => p.isReady) then
        [Event.playerReadyChanged "g" "u" true, Event.allPlayersReady "g"]
      else
        [Event.playerReadyChanged "g" "u" true] :=
  C4_toggleReady_allReady_events
    [("g", { id := "g", status := "Open", participants := [] })] "g" "u" true
    { id := "g", status := "Open", participants := [] } (by decide)

/-- C10: a `toggleReady` whose player id matches no participant of an
existing session still broadcasts `playerReadyChanged` with the given
arguments, leaves every participant record (and hence the stored session)
unchanged, and — whenever the untouched participant list is already all
ready, the empty list included — additionally broadcasts `allPlayersReady`,
whatever the `isReady` argument was. -/
theorem C10_toggleReady_unknown_player (store : Store) (gameId playerId : String)
    (ready : Bool) (game : Game) (h : mapGet store gameId = some game)
    (hnp : ∀ p ∈ game.participants, (p.uid == playerId) = false) :
    (toggleReady store gameId playerId ready).2 =
      (if game.participants.all (fun p => p.isReady) then
        [Event.playerReadyChanged gameId playerId ready, Event.allPlayersReady gameId]
      else
        [Event.playerReadyChanged gameId playerId ready])
    ∧ mapGet (toggleReady store gameId playerId ready).1 gameId = some game := by
  have hup := updateParts_no_match game.participants playerId ready hnp
  cases hall : game.participants.all (fun p => p.isReady) with
  | true => simp [toggleReady, h, hup, hall, mapGet_mapSet_self]
  | false => simp [toggleReady, h, hup, hall, mapGet_mapSet_self]

/-- Witness for C10: `playerId` "u" matches nobody, the lone participant is
already ready, and the call carries `isReady = false`; `playerReadyChanged`
and `allPlayersReady` both fire and the session is untouched. -/
theorem C10_toggleReady_unknown_player_witness :
    (toggleReady
        [("g", { id := "g", status := "Open",
                 participants := [{ uid := "w", name := "n", isReady := true }] })]
        "g" "u" false).2 =
      (if ([{ uid := "w", name := "n", isReady := true }] : List Participant).all
          (fun p => p.isReady) then
        [Event.playerReadyChanged "g" "u" false, Event.allPlayersReady "g"]
      else
        [Event.playerReadyChanged "g" "u" false])
    ∧ mapGet (toggleReady
        [("g", { id := "g", status := "Open",
                 participants := [{ uid := "w", name := "n", isReady := true }] })]
        "g" "u" false).1 "g" =
      some { id := "g", status := "Open",
             participants := [{ uid := "w", name := "n", isReady := true }] } :=
  C10_toggleReady_unknown_player
    [("g", { id := "g", status := "Open",
             participants := [{ uid := "w", name := "n", isReady := true }] })]
    "g" "u" false
    { id := "g", status := "Open",
      participants := [{ uid := "w", name := "n", isReady := true }] }
    (by decide) (by decide)

/-- A split is never empty: there is always at least the part before the
first separator. -/
theorem splitOnChar_ne_nil (sep : Char) (cs : List Char) :
    splitOnChar sep cs ≠ [] := by
  cases cs with
  | nil => simp [splitOnChar]
  | cons c rest =>
    cases h : c == sep with
    | true => simp [splitOnChar, h]
    | false =>
      cases hr : splitOnChar sep rest with
      | nil => simp [splitOnChar, h, hr]
      | cons g gs => simp [splitOnChar, h, hr]

/-- A split has one more part than there are separator occurrences. -/
theorem length_splitOnChar (sep : Char) (cs : List Char) :
    (splitOnChar sep cs).length = cs.count sep + 1 := by
  induction cs with
  | nil => simp [splitOnChar]
  | cons c rest ih =>
    cases h : c == sep with
    | true =>
      simp [splitOnChar, h, List.count_cons, ih]
    | false =>
      cases hr : splitOnChar sep rest with
      | nil => exact absurd hr (splitOnChar_ne_nil sep rest)
      | cons g gs =>
        rw [hr] at ih
        simp [splitOnChar, h, hr, List.count_cons, ← ih]

/-- The key/value loop never touches the `players` field. -/
theorem applyStatusVars_players :
    ∀ (vars : List (List Char)) (st : StatusResult),
      (applyStatusVars vars st).players = st.players
  | [], _ => rfl
  | [_], st => by
    simp only [applyStatusVars]
    split <;> split <;> split <;> rfl
  | _ :: _ :: rest, st => by
    simp only [applyStatusVars]
    rw [applyStatusVars_players rest]
    split <;> split <;> split <;> rfl

/-- C5: for every response payload, the parsed `players` field is the
number of newline-separated lines after the first line (that is, the
number of newline characters) minus one; a payload with no newline yields
`players = -1`, and no clamping to zero takes place. -/
theorem C5_players_newline_count (response : List Char) :
    (parseStatusResponse response).players = (response.count '\n' : Int) - 1
    ∧ (response.count '\n' = 0 → (parseStatusResponse response).players = -1) := by
  have hlen := length_splitOnChar '\n' response
  have hmain : (parseStatusResponse response).players = (response.count '\n' : Int) - 1 := by
    simp only [parseStatusResponse]
    rw [applyStatusVars_players]
    simp [List.length_tail, hlen]
  refine ⟨hmain, fun h0 => ?_⟩
  rw [hmain, h0]
  norm_num

/-- Witness for C5 on a payload containing no newline: the parsed player
count is the negative value -1. -/
theorem C5_players_newline_count_witness :
    ("statusResponse".toList.count '\n' = 0)
    ∧ (parseStatusResponse "statusResponse".toList).players = -1 :=
  ⟨by decide, (C5_players_newline_count "statusResponse".toList).2 (by decide)⟩

/-- The events produced by the disconnect scan: one `playerLeft` per game
containing the user, in store order. -/
theorem disconnect_scan_events (uid : String) :
    ∀ (l : List (String × Game)) (st : Store) (evs : List Event),
      (l.foldl (disconnectStep uid) (st, evs)).2 =
        evs ++ (l.filter (fun e => hasUser e.2 uid)).map
          (fun e => Event.playerLeft e.1 uid)
  | [], _, _ => by simp
  | e :: rest, st, evs => by
    cases h : hasUser e.2 uid with
    | true =>
      simp only [List.foldl_cons, disconnectStep, h, if_true,
        List.filter_cons_of_pos, List.map_cons]
      rw [disconnect_scan_events uid rest]
      simp
    | false =>
      simp only [List.foldl_cons, disconnectStep, h, Bool.false_eq_true, if_false]
      rw [disconnect_scan_events uid rest]
      simp [List.filter_cons, h]

/-- Once the store already records the cleaned game at a key, the rest of
the disconnect scan keeps it there, provided every entry carrying that key
carries that same game. -/
theorem disconnect_scan_preserve (uid k : String) (g : Game) :
    ∀ (l : List (String × Game)) (st : Store) (evs : List Event),
      (∀ e ∈ l, e.1 = k → e.2 = g) →
      mapGet st k = some (removeUser g uid) →
      mapGet ((l.foldl (disconnectStep uid) (st, evs)).1) k = some (removeUser g uid)
  | [], _, _, _, hst => hst
  | e :: rest, st, evs, hkey, hst => by
    have hkey' : ∀ x ∈ rest, x.1 = k → x.2 = g :=
      fun x hx => hkey x (List.mem_cons_of_mem e hx)
    cases h : hasUser e.2 uid with
    | false =>
      simp only [List.foldl_cons, disconnectStep, h, Bool.false_eq_true, if_false]
      exact disconnect_scan_preserve uid k g rest st evs hkey' hst
    | true =>
      simp only [List.foldl_cons, disconnectStep, h, if_true]
      refine disconnect_scan_preserve uid k g rest _ _ hkey' ?_
      by_cases hek : e.1 = k
      · have he2 : e.2 = g := hkey e (List.mem_cons_self e rest) hek
        rw [hek, he2]
        exact mapGet_mapSet_self st k (removeUser g uid)
      · rw [mapGet_mapSet_ne st k e.1 (removeUser e.2 uid) hek]
        exact hst

/-- After the disconnect scan, a key whose (unique) game contained the
user maps to that game with the user's participants removed. -/
theorem disconnect_scan_get (uid k : String) (g : Game) :
    ∀ (l : List (String × Game)) (st : Store) (evs : List Event),
      (k, g) ∈ l →
      (∀ e ∈ l, e.1 = k → e.2 = g) →
      hasUser g uid = true →
      mapGet ((l.foldl (disconnectStep uid) (st, evs)).1) k = some (removeUser g uid)
  | [], _, _, hmem, _, _ => absurd hmem (List.not_mem_nil _)
  | e :: rest, st, evs, hmem, hkey, hg => by
    have hkey' : ∀ x ∈ rest, x.1 = k → x.2 = g :=
      fun x hx => hkey x (List.mem_cons_of_mem e hx)
    by_cases hek : e.1 = k
    · have he2 : e.2 = g := hkey e (List.mem_cons_self e rest) hek
      have hh : hasUser e.2 uid = true := by rw [he2]; exact hg
      simp only [List.foldl_cons, disconnectStep, hh, if_true]
      refine disconnect_scan_preserve uid k g rest _ _ hkey' ?_
      rw [hek, he2]
      exact mapGet_mapSet_self st k (removeUser g uid)
    · have hmem' : (k, g) ∈ rest := by
        cases hmem with
        | head => exact absurd rfl hek
        | tail _ htl => exact htl
      cases h : hasUser e.2 uid with
      | false =>
        simp only [List.foldl_cons, disconnectStep, h, Bool.false_eq_true, if_false]
        exact disconnect_scan_get uid k g rest st evs hmem' hkey' hg
      | true =>
        simp only [List.foldl_cons, disconnectStep, h, if_true]
        exact disconnect_scan_get uid k g rest _ _ hmem' hkey' hg

/-- Removing a user's participants removes every record with that uid. -/
theorem hasUser_removeUser (g : Game) (uid : String) :
    hasUser (removeUser g uid) uid = false := by
  simp only [hasUser, removeUser]
  rw [Bool.eq_false_iff]
  intro hany
  obtain ⟨p, hp, hpe⟩ := List.any_eq_true.mp hany
  obtain ⟨_, hkeep⟩ := List.mem_filter.mp hp
  rw [hpe] at hkeep
  exact absurd hkeep (by decide)

/-- C7: disconnecting a registered connection whose user id appears as a
participant in exactly two sessions emits exactly two events — one
`playerLeft` per such session — removes every participant with that user
id from both sessions, and deletes the connection's registry entry, so a
subsequent lookup reports it absent.  The hypotheses `hk1`/`hk2` express
the JS `Map` invariant that a key denotes one entry, and `hexact` that the
user is a participant in exactly two stored sessions. -/
theorem C7_disconnect_two_sessions
    (users : Registry) (store : Store) (socketId : String) (user : UserInfo)
    (g1 g2 : String) (game1 game2 : Game)
    (hu : userGet users socketId = some user)
    (h1 : mapGet store g1 = some game1)
    (h2 : mapGet store g2 = some game2)
    (hk1 : ∀ e ∈ store, e.1 = g1 → e.2 = game1)
    (hk2 : ∀ e ∈ store, e.1 = g2 → e.2 = game2)
    (hin1 : hasUser game1 user.id = true)
    (hin2 : hasUser game2 user.id = true)
    (hexact : (store.filter (fun e => hasUser e.2 user.id)).length = 2) :
    (disconnect users store socketId).2.2.length = 2
    ∧ Event.playerLeft g1 user.id ∈ (disconnect users store socketId).2.2
    ∧ Event.playerLeft g2 user.id ∈ (disconnect users store socketId).2.2
    ∧ mapGet (disconnect users store socketId).2.1 g1 = some (removeUser game1 user.id)
    ∧ mapGet (disconnect users store socketId).2.1 g2 = some (removeUser game2 user.id)
    ∧ hasUser (removeUser game1 user.id) user.id = false
    ∧ hasUser (removeUser game2 user.id) user.id = false
    ∧ userGet (disconnect users store socketId).1 socketId = none := by
  have hmem1 : (g1, game1) ∈ store := mapGet_mem store g1 game1 h1
  have hmem2 : (g2, game2) ∈ store := mapGet_mem store g2 game2 h2
  have hd : disconnect users store socketId =
      (userDelete users socketId,
       (store.foldl (disconnectStep user.id) (store, [])).1,
       (store.foldl (disconnectStep user.id) (store, [])).2) := by
    simp [disconnect, hu]
  rw [hd]
  have hevs := disconnect_scan_events user.id store store []
  refine ⟨?_, ?_, ?_, ?_, ?_, ?_, ?_, ?_⟩
  · rw [hevs]
    simp [hexact]
  · rw [hevs]
    simp only [List.nil_append]
    exact List.mem_map_of_mem _ (List.mem_filter.mpr ⟨hmem1, hin1⟩)
  · rw [hevs]
    simp only [List.nil_append]
    exact List.mem_map_of_mem _ (List.mem_filter.mpr ⟨hmem2, hin2⟩)
  · exact disconnect_scan_get user.id g1 game1 store store [] hmem1 hk1 hin1
  · exact disconnect_scan_get user.id g2 game2 store store [] hmem2 hk2 hin2
  · exact hasUser_removeUser game1 user.id
  · exact hasUser_removeUser game2 user.id
  · exact userGet_userDelete users socketId

/-- Witness for C7: user "u" on socket "s1" is a participant in the two
stored sessions "a" and "b". -/
theorem C7_disconnect_two_sessions_witness :
    (disconnect [("s1", { id := "u", name := "n", email := none, avatar := none })]
        [("a", { id := "a", status := "Open",
                 participants := [{ uid := "u", name := "n", isReady := false }] }),
         ("b", { id := "b", status := "Open",
                 participants := [{ uid := "u", name := "n", isReady := true },
                                  { uid := "v", name := "m", isReady := false }] })]
        "s1").2.2.length = 2
    ∧ Event.playerLeft "a" "u" ∈
        (disconnect [("s1", { id := "u", name := "n", email := none, avatar := none })]
          [("a", { id := "a", status := "Open",
                   participants := [{ uid := "u", name := "n", isReady := false }] }),
           ("b", { id := "b", status := "Open",
                   participants := [{ uid := "u", name := "n", isReady := true },
                                    { uid := "v", name := "m", isReady := false }] })]
          "s1").2.2
    ∧ Event.playerLeft "b" "u" ∈
        (disconnect [("s1", { id := "u", name := "n", email := none, avatar := none })]
          [("a", { id := "a", status := "Open",
                   participants := [{ uid := "u", name := "n", isReady := false }] }),
           ("b", { id := "b", status := "Open",
                   participants := [{ uid := "u", name := "n", isReady := true },
                                    { uid := "v", name := "m", isReady := false }] })]
          "s1").2.2
    ∧ mapGet (disconnect [("s1", { id := "u", name := "n", email := none, avatar := none })]
          [("a", { id := "a", status := "Open",
                   participants := [{ uid := "u", name := "n", isReady := false }] }),
           ("b", { id := "b", status := "Open",
                   participants := [{ uid := "u", name := "n", isReady := true },
                                    { uid := "v", name := "m", isReady := false }] })]
          "s1").2.1 "a" =
        some (removeUser { id := "a", status := "Open",
                           participants := [{ uid := "u", name := "n", isReady := false }] } "u")
    ∧ mapGet (disconnect [("s1", { id := "u", name := "n", email := none, avatar := none })]
          [("a", { id := "a", status := "Open",
                   participants := [{ uid := "u", name := "n", isReady := false }] }),
           ("b", { id := "b", status := "Open",
                   participants := [{ uid := "u", name := "n", isReady := true },
                                    { uid := "v", name := "m", isReady := false }] })]
          "s1").2.1 "b" =
        some (removeUser { id := "b", status := "Open",
                           participants := [{ uid := "u", name := "n", isReady := true },
                                            { uid := "v", name := "m", isReady := false }] } "u")
    ∧ hasUser (removeUser { id := "a", status := "Open",
                            participants := [{ uid := "u", name := "n", isReady := false }] } "u") "u" = false
    ∧ hasUser (removeUser { id := "b", status := "Open",
                            participants := [{ uid := "u", name := "n", isReady := true },
                                             { uid := "v", name := "m", isReady := false }] } "u") "u" = false
    ∧ userGet (disconnect [("s1", { id := "u", name := "n", email := none, avatar := none })]
          [("a", { id := "a", status := "Open",
                   participants := [{ uid := "u", name := "n", isReady := false }] }),
           ("b", { id := "b", status := "Open",
                   participants := [{ uid := "u", name := "n", isReady := true },
                                    { uid := "v", name := "m", isReady := false }] })]
          "s1").1 "s1" = none :=
  C7_disconnect_two_sessions
    [("s1", { id := "u", name := "n", email := none, avatar := none })]
    [("a", { id := "a", status := "Open",
             participants := [{ uid := "u", name := "n", isReady := false }] }),
     ("b", { id := "b", status := "Open",
             participants := [{ uid := "u", name := "n", isReady := true },
                              { uid := "v", name := "m", isReady := false }] })]
    "s1" { id := "u", name := "n", email := none, avatar := none }
    "a" "b"
    { id := "a", status := "Open",
      participants := [{ uid := "u", name := "n", isReady := false }] }
    { id := "b", status := "Open",
      participants := [{ uid := "u", name := "n", isReady := true },
                       { uid := "v", name := "m", isReady := false }] }
    (by decide) (by decide) (by decide) (by decide) (by decide)
    (by decide) (by decide) (by decide)

end EmaGaming
